import Mathlib

/-!
Shallow embedding of the cogcms task-tracking server core: the relational
rows (users, projects, boards, tasks, badges, userBadges, activities,
taskDependencies) become Lean structures, the `DatabaseStorage` methods
become pure functions on an explicit `DB` state, and the Express route
handlers become state-passing functions returning a `Response`.
Generated ids and `new Date()` timestamps are threaded in as parameters.
JavaScript `Math.floor(points / 100)` is modelled with `Int.fdiv`, and
JavaScript truthiness of nullable string columns (`null` and `""` are
falsy) is modelled explicitly where the source relies on it.
-/

namespace Cog

/-- Task status enum (`task_status` in shared/schema.ts). -/
inductive Status where
  | todo
  | in_progress
  | review
  | done
deriving DecidableEq

/-- Task priority enum (`task_priority`). -/
inductive Priority where
  | low
  | medium
  | high
  | urgent
deriving DecidableEq

/-- Task type enum (`task_type`). -/
inductive TaskType where
  | task
  | bug
  | feature
  | challenge
deriving DecidableEq

/-- Global user role enum (`user_role`). -/
inductive Role where
  | super_admin
  | admin
  | project_manager
  | member
  | guest
deriving DecidableEq

/-- Project visibility enum (`project_visibility`): `pub` is `'public'`,
`priv` is `'private'` (renamed because `private` is a Lean keyword). -/
inductive Visibility where
  | pub
  | priv
deriving DecidableEq

/-- String rendering of a status, as it appears in SQL and in interpolated
descriptions. -/
def statusText : Status → String
  | Status.todo => "todo"
  | Status.in_progress => "in_progress"
  | Status.review => "review"
  | Status.done => "done"

/-- Rendering of `oldTask?.status` inside a template literal: JavaScript
prints `undefined` when the task was not found. -/
def statusTextOpt : Option Status → String
  | some s => statusText s
  | none => "undefined"

/-- String rendering of a priority. -/
def priorityText : Priority → String
  | Priority.low => "low"
  | Priority.medium => "medium"
  | Priority.high => "high"
  | Priority.urgent => "urgent"

/-- String rendering of a task type. -/
def typeText : TaskType → String
  | TaskType.task => "task"
  | TaskType.bug => "bug"
  | TaskType.feature => "feature"
  | TaskType.challenge => "challenge"

/-- A row of the `users` table (shared/schema.ts).  Timestamps are
abstracted to `Nat`; `points` and `level` are JavaScript numbers holding
integers, modelled as `Int`. -/
structure User where
  id : String
  email : Option String
  firstName : Option String
  lastName : Option String
  profileImageUrl : Option String
  role : Role
  bio : Option String
  country : Option String
  sdgAlignment : Option (List String)
  points : Int
  level : Int
  createdAt : Nat
  updatedAt : Nat
deriving DecidableEq

/-- A row of the `projects` table. -/
structure Project where
  id : String
  name : String
  description : Option String
  visibility : Visibility
  sdgTags : Option (List String)
  ownerId : String
  createdAt : Nat
  updatedAt : Nat
deriving DecidableEq

/-- One entry of a board's `columns` jsonb payload. -/
structure Column where
  id : String
  name : String
  order : Nat
deriving DecidableEq

/-- A row of the `boards` table. -/
structure Board where
  id : String
  name : String
  description : Option String
  projectId : String
  columns : List Column
  createdAt : Nat
  updatedAt : Nat
deriving DecidableEq

/-- A row of the `tasks` table. -/
structure Task where
  id : String
  title : String
  description : Option String
  type : TaskType
  priority : Priority
  status : Status
  boardId : String
  assigneeId : Option String
  reporterId : String
  labels : Option (List String)
  estimationHours : Option Int
  rewardPoints : Int
  dueDate : Option Nat
  sdgLink : Option String
  progress : Int
  createdAt : Nat
  updatedAt : Nat
deriving DecidableEq

/-- A row of the `task_dependencies` table (present in the schema, and —
as claim C9 records — never written by the storage layer). -/
structure TaskDep where
  id : String
  taskId : String
  dependsOnTaskId : String
  createdAt : Nat
deriving DecidableEq

/-- A row of the `badges` table.  The uninterpreted `criteria` jsonb
payload is abstracted to an opaque optional string. -/
structure Badge where
  id : String
  name : String
  description : Option String
  icon : Option String
  criteria : Option String
  pointsRequired : Option Int
  isActive : Bool
  createdAt : Nat
deriving DecidableEq

/-- A row of the `user_badges` table. -/
structure UserBadge where
  id : String
  userId : String
  badgeId : String
  earnedAt : Nat
deriving DecidableEq

/-- The jsonb `metadata` payloads the routes actually write, as the tagged
union of the object literals appearing in the source. -/
inductive Metadata where
  | projectCreated (projectName : String)
  | taskCreated (taskTitle : String)
  | taskCompleted (taskTitle : String) (pointsEarned : Int)
  | statusChanged (oldStatus : Option Status) (newStatus : Status) (comment : Option String)
  | labelsUpdated (labels : Option (List String))
  | taskAssigned (taskTitle : String) (assigneeId : String)
  | badgeEarned (badgeId : String)
  | dependencyCreated (dependsOnTaskId : String)
deriving DecidableEq

/-- The `metadata?.dependsOnTaskId` optional-chaining read used by
`getTaskDependencies`. -/
def Metadata.dependsOn? : Metadata → Option String
  | Metadata.dependencyCreated d => some d
  | _ => none

/-- A row of the `activities` table. -/
structure Activity where
  id : String
  userId : String
  type : String
  description : String
  metadata : Option Metadata
  projectId : Option String
  taskId : Option String
  createdAt : Nat
deriving DecidableEq

/-- The relational store: one list of rows per table touched by the
claims. -/
structure DB where
  users : List User
  projects : List Project
  boards : List Board
  tasks : List Task
  badges : List Badge
  userBadges : List UserBadge
  activities : List Activity
  taskDependencies : List TaskDep
deriving DecidableEq

/-! ### Storage layer (`DatabaseStorage` methods) -/

/-- `getUser`: `select from users where eq(users.id, id)`, first row. -/
def getUser (db : DB) (id : String) : Option User :=
  db.users.find? (fun u => u.id = id)

/-- `getTask`: `select from tasks where eq(tasks.id, id)`, first row. -/
def getTask (db : DB) (id : String) : Option Task :=
  db.tasks.find? (fun t => t.id = id)

/-- `getBadge` analogue is unused by the claims; `getBadges` filters to
active badges and orders by name. -/
def getBadges (db : DB) : List Badge :=
  List.insertionSort (fun a b => a.name ≤ b.name)
    (db.badges.filter (fun b => b.isActive = true))

/-- `deleteBadge`: soft delete — `update badges set isActive = false where
eq(badges.id, id)`. -/
def deleteBadge (db : DB) (id : String) : DB :=
  { db with badges := db.badges.map (fun b => if b.id = id then { b with isActive := false } else b) }

/-- The level formula of `updateUserPoints`:
`Math.floor(points / 100) + 1`. -/
def levelFor (points : Int) : Int :=
  points.fdiv 100 + 1

/-- `updateUserPoints`: writes the given points value, the recomputed
level and a fresh `updatedAt` to the user row, returning the updated
row. -/
def updateUserPoints (db : DB) (userId : String) (points : Int) (now : Nat) : DB × Option User :=
  let upd := fun u : User => { u with points := points, level := levelFor points, updatedAt := now }
  ({ db with users := db.users.map (fun u => if u.id = userId then upd u else u) },
   (db.users.find? (fun u => u.id = userId)).map upd)

/-- `updateUserRole`: writes only `role` and `updatedAt`. -/
def updateUserRole (db : DB) (userId : String) (role : Role) (now : Nat) : DB × Option User :=
  let upd := fun u : User => { u with role := role, updatedAt := now }
  ({ db with users := db.users.map (fun u => if u.id = userId then upd u else u) },
   (db.users.find? (fun u => u.id = userId)).map upd)

/-- The fields accepted by `upsertUser` (the `upsertUserSchema` pick of
id/email/firstName/lastName/profileImageUrl). -/
structure UpsertUser where
  id : String
  email : Option String := none
  firstName : Option String := none
  lastName : Option String := none
  profileImageUrl : Option String := none
deriving DecidableEq

/-- `upsertUser`: insert with the schema column defaults (`points` 0,
`level` 1, `role` member), or on id conflict overwrite the supplied
fields plus `updatedAt`. -/
def upsertUser (db : DB) (u : UpsertUser) (now : Nat) : DB × Option User :=
  match db.users.find? (fun x => x.id = u.id) with
  | some _ =>
    let upd := fun x : User =>
      { x with email := u.email, firstName := u.firstName, lastName := u.lastName,
               profileImageUrl := u.profileImageUrl, updatedAt := now }
    ({ db with users := db.users.map (fun x => if x.id = u.id then upd x else x) },
     (db.users.find? (fun x => x.id = u.id)).map upd)
  | none =>
    let fresh : User :=
      { id := u.id, email := u.email, firstName := u.firstName, lastName := u.lastName,
        profileImageUrl := u.profileImageUrl, role := Role.member, bio := none, country := none,
        sdgAlignment := none, points := 0, level := 1, createdAt := now, updatedAt := now }
    ({ db with users := db.users ++ [fresh] }, some fresh)

/-- The patchable task columns (`insertTaskSchema.partial()`): `none`
means the field is absent from the request body. -/
structure TaskPatch where
  title : Option String := none
  description : Option (Option String) := none
  type : Option TaskType := none
  priority : Option Priority := none
  status : Option Status := none
  boardId : Option String := none
  assigneeId : Option (Option String) := none
  reporterId : Option String := none
  labels : Option (Option (List String)) := none
  estimationHours : Option (Option Int) := none
  rewardPoints : Option Int := none
  dueDate : Option (Option Nat) := none
  sdgLink : Option (Option String) := none
  progress : Option Int := none
deriving DecidableEq

/-- The row produced by `update tasks set { ...task, updatedAt: new
Date() } where eq(tasks.id, id)` on a single row. -/
def applyTaskPatch (t : Task) (p : TaskPatch) (now : Nat) : Task :=
  { id := t.id
    title := p.title.getD t.title
    description := p.description.getD t.description
    type := p.type.getD t.type
    priority := p.priority.getD t.priority
    status := p.status.getD t.status
    boardId := p.boardId.getD t.boardId
    assigneeId := p.assigneeId.getD t.assigneeId
    reporterId := p.reporterId.getD t.reporterId
    labels := p.labels.getD t.labels
    estimationHours := p.estimationHours.getD t.estimationHours
    rewardPoints := p.rewardPoints.getD t.rewardPoints
    dueDate := p.dueDate.getD t.dueDate
    sdgLink := p.sdgLink.getD t.sdgLink
    progress := p.progress.getD t.progress
    createdAt := t.createdAt
    updatedAt := now }

/-- `updateTask`: patch the matching row, returning the updated row (or
`none` when no row matched, in which case the caller dereferencing the
result throws). -/
def updateTask (db : DB) (id : String) (p : TaskPatch) (now : Nat) : DB × Option Task :=
  ({ db with tasks := db.tasks.map (fun t => if t.id = id then applyTaskPatch t p now else t) },
   (db.tasks.find? (fun t => t.id = id)).map (fun t => applyTaskPatch t p now))

/-- `deleteTask`: hard delete by id. -/
def deleteTask (db : DB) (id : String) : DB :=
  { db with tasks := db.tasks.filter (fun t => ¬ t.id = id) }

/-- `createActivity`: append-only insert into `activities`. -/
def createActivity (db : DB) (a : Activity) : DB × Activity :=
  ({ db with activities := db.activities ++ [a] }, a)

/-- The `insertProjectSchema` payload. -/
structure InsertProject where
  name : String
  description : Option String := none
  visibility : Visibility := Visibility.pub
  sdgTags : Option (List String) := none
  ownerId : String := ""
deriving DecidableEq

/-- `createProject`: insert returning the new row (id and timestamps are
server generated, threaded in as parameters). -/
def createProject (db : DB) (p : InsertProject) (genId : String) (now : Nat) : DB × Project :=
  let project : Project :=
    { id := genId, name := p.name, description := p.description, visibility := p.visibility,
      sdgTags := p.sdgTags, ownerId := p.ownerId, createdAt := now, updatedAt := now }
  ({ db with projects := db.projects ++ [project] }, project)

/-- The default `columns` jsonb value of the `boards` table. -/
def defaultBoardColumns : List Column :=
  [{ id := "todo", name := "To Do", order := 0 },
   { id := "in_progress", name := "In Progress", order := 1 },
   { id := "review", name := "Review", order := 2 },
   { id := "done", name := "Done", order := 3 }]

/-- The `insertBoardSchema` payload; an absent `columns` value falls back
to the schema default on insert. -/
structure InsertBoard where
  name : String
  projectId : String
  description : Option String := none
  columns : Option (List Column) := none
deriving DecidableEq

/-- `createBoard`: insert returning the new row; the `columns` column
default applies when the payload omits it. -/
def createBoard (db : DB) (b : InsertBoard) (genId : String) (now : Nat) : DB × Board :=
  let board : Board :=
    { id := genId, name := b.name, description := b.description, projectId := b.projectId,
      columns := b.columns.getD defaultBoardColumns, createdAt := now, updatedAt := now }
  ({ db with boards := db.boards ++ [board] }, board)

/-- The anonymous record shape returned by `createTaskDependency` and
`getTaskDependencies`.  The fields read back out of an activity row are
nullable (`dep.taskId` is a nullable column and
`dep.metadata?.dependsOnTaskId` may be absent), hence the `Option`s. -/
structure DepView where
  id : String
  taskId : Option String
  dependsOnTaskId : Option String
  createdAt : Nat
deriving DecidableEq

/-- `createTaskDependency`: the "simplified implementation using
activities" — inserts an activity row of type `dependency_created` with an
empty-string actor (`userId: ''`) and the dependency target in
`metadata`; the `task_dependencies` table is not written. -/
def createTaskDependency (db : DB) (taskId dependsOnTaskId : String) (actId : String) (now : Nat) :
    DB × DepView :=
  let (db1, act) := createActivity db
    { id := actId, userId := "", type := "dependency_created",
      description := "Task dependency created",
      metadata := some (Metadata.dependencyCreated dependsOnTaskId),
      projectId := none, taskId := some taskId, createdAt := now }
  (db1, { id := act.id, taskId := some taskId, dependsOnTaskId := some dependsOnTaskId,
          createdAt := act.createdAt })

/-- `getTaskDependencies`: reads the `dependency_created` activity rows
for a task back into dependency records. -/
def getTaskDependencies (db : DB) (taskId : String) : List DepView :=
  (db.activities.filter (fun a => a.taskId = some taskId ∧ a.type = "dependency_created")).map
    (fun a => { id := a.id, taskId := a.taskId,
                dependsOnTaskId := a.metadata.bind Metadata.dependsOn?,
                createdAt := a.createdAt })

/-! ### Search (`DatabaseStorage.searchTasks`) -/

/-- The query parameters of `GET /api/tasks/search` after `parseInt` of
`limit`/`offset`. -/
structure SearchParams where
  query : Option String := none
  assigneeId : Option String := none
  reporterId : Option String := none
  status : Option String := none
  priority : Option String := none
  type : Option String := none
  projectId : Option String := none
  limit : Nat := 50
  offset : Nat := 0
deriving DecidableEq

/-- Character-list equality up to the end of the first list. -/
def leadsWith : List Char → List Char → Bool
  | [], _ => true
  | _ :: _, [] => false
  | a :: as, b :: bs => a = b && leadsWith as bs

/-- Substring occurrence over character lists. -/
def occursIn (pat : List Char) : List Char → Bool
  | [] => leadsWith pat []
  | c :: rest => leadsWith pat (c :: rest) || occursIn pat rest

/-- SQL `LIKE :col '%pat%'` on a non-null text column: substring
containment. -/
def likeContains (s pat : String) : Bool :=
  occursIn pat.toList s.toList

/-- `LIKE` on a nullable text column: `NULL LIKE x` is not true. -/
def likeContainsOpt (s : Option String) (pat : String) : Bool :=
  match s with
  | some v => likeContains v pat
  | none => false

/-- A `conditions.push(...)` guard: the condition is only added when the
parameter is truthy (present and non-empty), otherwise it is absent —
i.e. vacuously true. -/
def condOpt (p : Option String) (f : String → Bool) : Bool :=
  match p with
  | some s => if s = "" then true else f s
  | none => true

/-- The conjunction of all pushed search conditions for one task row. -/
def taskMatches (t : Task) (p : SearchParams) : Bool :=
  condOpt p.query (fun q => likeContains t.title q || likeContainsOpt t.description q)
  && condOpt p.assigneeId (fun a => t.assigneeId = some a)
  && condOpt p.reporterId (fun r => t.reporterId = r)
  && condOpt p.status (fun s => statusText t.status = s)
  && condOpt p.priority (fun s => priorityText t.priority = s)
  && condOpt p.type (fun s => typeText t.type = s)

/-- `orderBy(desc(tasks.updatedAt))`. -/
def sortByUpdatedDesc (l : List Task) : List Task :=
  List.insertionSort (fun a b => b.updatedAt ≤ a.updatedAt) l

/-- The column set the `projectId` branch of `searchTasks` explicitly
projects (15 columns; `dueDate` and `progress` are absent). -/
structure ProjTask where
  id : String
  title : String
  description : Option String
  status : Status
  priority : Priority
  type : TaskType
  assigneeId : Option String
  reporterId : String
  boardId : String
  rewardPoints : Int
  estimationHours : Option Int
  sdgLink : Option String
  labels : Option (List String)
  createdAt : Nat
  updatedAt : Nat
deriving DecidableEq

/-- The projection of a full task row onto the 15 selected columns. -/
def projectTask (t : Task) : ProjTask :=
  { id := t.id, title := t.title, description := t.description, status := t.status,
    priority := t.priority, type := t.type, assigneeId := t.assigneeId,
    reporterId := t.reporterId, boardId := t.boardId, rewardPoints := t.rewardPoints,
    estimationHours := t.estimationHours, sdgLink := t.sdgLink, labels := t.labels,
    createdAt := t.createdAt, updatedAt := t.updatedAt }

/-- The `projectId` branch of `searchTasks`: inner join with `boards` on
`tasks.boardId = boards.id`, `where and(eq(boards.projectId, P),
...conditions)`, explicit projection, order by `updatedAt` descending,
then offset/limit. -/
def searchTasksProj (db : DB) (p : SearchParams) (pid : String) : List ProjTask :=
  let matched := db.tasks.filter (fun t =>
    (db.boards.any (fun b => b.id = t.boardId ∧ b.projectId = pid)) && taskMatches t p)
  (((sortByUpdatedDesc matched).map projectTask).drop p.offset).take p.limit

/-- The branch of `searchTasks` without a `projectId`: full rows, the
pushed conditions (if any) conjoined, same ordering and pagination. -/
def searchTasksFull (db : DB) (p : SearchParams) : List Task :=
  ((sortByUpdatedDesc (db.tasks.filter (fun t => taskMatches t p))).drop p.offset).take p.limit

/-- A result row of `searchTasks`: a full task row or a projected one,
depending on the branch taken. -/
inductive SearchRow where
  | full (t : Task)
  | projected (r : ProjTask)
deriving DecidableEq

/-- `searchTasks`: dispatches on the truthiness of `params.projectId`. -/
def searchTasks (db : DB) (p : SearchParams) : List SearchRow :=
  match p.projectId with
  | some pid =>
    if pid = "" then (searchTasksFull db p).map SearchRow.full
    else (searchTasksProj db p pid).map SearchRow.projected
  | none => (searchTasksFull db p).map SearchRow.full

/-! ### Route handlers -/

/-- The observable outcome of a route handler: `res.json(value)` or an
error response from the catch block. -/
inductive Response (α : Type) where
  | ok (value : α)
  | serverError (message : String)
deriving DecidableEq

/-- The `task_completed` activity row the award block inserts; its actor
is the assignee. -/
def completedActivity (aid : String) (task : Task) (actId : String) (now : Nat) : Activity :=
  { id := actId, userId := aid, type := "task_completed",
    description := "Completed task \"" ++ task.title ++ "\" and earned "
      ++ toString task.rewardPoints ++ " points",
    metadata := some (Metadata.taskCompleted task.title task.rewardPoints),
    projectId := none, taskId := some task.id, createdAt := now }

/-- The `status_changed` activity row the transition handler always
inserts. -/
def statusActivity (uid : String) (oldStatus : Option Status) (status : Status)
    (comment : Option String) (tid actId : String) (now : Nat) : Activity :=
  { id := actId, userId := uid, type := "status_changed",
    description := "Changed task status from " ++ statusTextOpt oldStatus ++ " to "
      ++ statusText status,
    metadata := some (Metadata.statusChanged oldStatus status comment),
    projectId := none, taskId := some tid, createdAt := now }

/-- The point-award block both `PUT /api/tasks/:id` and
`PUT /api/tasks/:id/transition` contain verbatim:
`if (oldTask?.status !== 'done' && X === 'done' && task.assigneeId)` award
`task.rewardPoints` to the assignee and log a `task_completed` activity.
`checkStatus` is `task.status` on the update path and the requested
`status` on the transition path; JavaScript truthiness of
`task.assigneeId` excludes `null` and `""`. -/
def awardIfCompleted (db : DB) (oldStatus : Option Status) (checkStatus : Status) (task : Task)
    (actId : String) (now : Nat) : DB :=
  match task.assigneeId with
  | some aid =>
    if oldStatus ≠ some Status.done ∧ checkStatus = Status.done ∧ aid ≠ "" then
      match getUser db aid with
      | some assignee =>
        let newPoints := assignee.points + task.rewardPoints
        let db1 := (updateUserPoints db aid newPoints now).1
        (createActivity db1 (completedActivity aid task actId now)).1
      | none => db
    else db
  | none => db

/-- `PUT /api/tasks/:id` (generic task update): read the old task, apply
the patch, conditionally award points; no other activity is logged. -/
def updateTaskRoute (db : DB) (taskId : String) (patch : TaskPatch) (actId : String) (now : Nat) :
    DB × Response Task :=
  let oldTask := getTask db taskId
  match updateTask db taskId patch now with
  | (db1, some task) =>
    (awardIfCompleted db1 (oldTask.map Task.status) task.status task actId now, Response.ok task)
  | (db1, none) => (db1, Response.serverError "Failed to update task")

/-- `PUT /api/tasks/:id/transition`: read the old task, write the new
status, always log one `status_changed` activity, then conditionally
award points (which logs a second activity). -/
def transitionTaskRoute (db : DB) (userId taskId : String) (status : Status)
    (comment : Option String) (actId1 actId2 : String) (now : Nat) : DB × Response Task :=
  let oldTask := getTask db taskId
  match updateTask db taskId { status := some status } now with
  | (db1, some task) =>
    let db2 := (createActivity db1
      (statusActivity userId (oldTask.map Task.status) status comment task.id actId1 now)).1
    (awardIfCompleted db2 (oldTask.map Task.status) status task actId2 now, Response.ok task)
  | (db1, none) => (db1, Response.serverError "Failed to transition task")

/-- `POST /api/projects`: create the project, always create the default
"Main Board" (no `columns` in the payload, so the schema default
applies), and log one `project_created` activity. -/
def createProjectRoute (db : DB) (userId : String) (body : InsertProject)
    (projId boardId actId : String) (now : Nat) : DB × Response Project :=
  let (db1, project) := createProject db { body with ownerId := userId } projId now
  let (db2, _board) := createBoard db1
    { name := "Main Board", projectId := project.id, description := some "Default project board" }
    boardId now
  let db3 := (createActivity db2
    { id := actId, userId := userId, type := "project_created",
      description := "Created project \"" ++ project.name ++ "\"",
      metadata := some (Metadata.projectCreated project.name),
      projectId := some project.id, taskId := none, createdAt := now }).1
  (db3, Response.ok project)

/-- `POST /api/projects/:projectId/boards`: creates the board and
responds; no activity is logged by this handler. -/
def createBoardRoute (db : DB) (projectId : String) (body : InsertBoard) (genId : String)
    (now : Nat) : DB × Response Board :=
  let (db1, board) := createBoard db { body with projectId := projectId } genId now
  (db1, Response.ok board)

/-- `DELETE /api/tasks/:id`: deletes the row and responds; no activity is
logged by this handler. -/
def deleteTaskRoute (db : DB) (taskId : String) : DB × Response String :=
  (deleteTask db taskId, Response.ok "Task deleted successfully")

/-! ### Failure-injected route variants (claim C7)

The route bodies sit in a single `try` block; a throwing
`storage.createActivity` transfers control to the `catch`, which logs the
error and responds 500.  Inserts already executed are not rolled back
(there is no transaction). -/

/-- `PUT /api/tasks/:id/transition` when the `status_changed` activity
insert throws: the task update has already been committed, the award
block is never reached, and the catch block answers with the 500
message. -/
def transitionTaskRouteLogFail (db : DB) (taskId : String) (status : Status) (now : Nat) :
    DB × Response Task :=
  ((updateTask db taskId { status := some status } now).1,
   Response.serverError "Failed to transition task")

/-- The award block when its `task_completed` activity insert throws: the
points update has already been committed; the `Bool` reports whether the
throwing insert was reached. -/
def awardIfCompletedLogFail (db : DB) (oldStatus : Option Status) (checkStatus : Status)
    (task : Task) (now : Nat) : DB × Bool :=
  match task.assigneeId with
  | some aid =>
    if oldStatus ≠ some Status.done ∧ checkStatus = Status.done ∧ aid ≠ "" then
      match getUser db aid with
      | some assignee =>
        ((updateUserPoints db aid (assignee.points + task.rewardPoints) now).1, true)
      | none => (db, false)
    else (db, false)
  | none => (db, false)

/-- `PUT /api/tasks/:id` when the `task_completed` activity insert
throws: both the task update and the points update persist, and the catch
block answers with the 500 message instead of the updated task. -/
def updateTaskRouteLogFail (db : DB) (taskId : String) (patch : TaskPatch) (now : Nat) :
    DB × Response Task :=
  let oldTask := getTask db taskId
  match updateTask db taskId patch now with
  | (db1, some task) =>
    match awardIfCompletedLogFail db1 (oldTask.map Task.status) task.status task now with
    | (db2, true) => (db2, Response.serverError "Failed to update task")
    | (db2, false) => (db2, Response.ok task)
  | (db1, none) => (db1, Response.serverError "Failed to update task")

/-! ### Interleaving model of the point award (claim C8)

The award block performs `getUser` (read `points`) and `updateUserPoints`
(write `points`) as two separate storage calls with no transaction or
conditional update around them, so two route handlers completing two
tasks for the same assignee can interleave between the read and the
write.  Each thread below is the read/write pair of one award, with its
program counter and the points value it read. -/

/-- One in-flight point award: `reward` is the task's `rewardPoints`,
`pc` 0 = about to read, 1 = about to write, 2 = finished, and `acc` holds
the `assignee.points` value the thread read. -/
structure AwardThread where
  reward : Int
  pc : Nat
  acc : Int
deriving DecidableEq

/-- A thread that has not started yet. -/
def awardInit (reward : Int) : AwardThread :=
  { reward := reward, pc := 0, acc := 0 }

/-- One atomic storage call of an award thread: the `getUser` read or the
`updateUserPoints` write (`newPoints = assignee.points +
task.rewardPoints`). -/
def awardStep (db : DB) (uid : String) (t : AwardThread) (now : Nat) : DB × AwardThread :=
  match t.pc with
  | 0 =>
    match getUser db uid with
    | some assignee => (db, { t with pc := 1, acc := assignee.points })
    | none => (db, { t with pc := 2 })
  | 1 => ((updateUserPoints db uid (t.acc + t.reward) now).1, { t with pc := 2 })
  | _ => (db, t)

/-- Run two award threads under a schedule: `true` steps thread `a`,
`false` steps thread `b`. -/
def runAwards (db : DB) (uid : String) (a b : AwardThread) (now : Nat) : List Bool → DB
  | [] => db
  | c :: rest =>
    if c then
      let (db1, a1) := awardStep db uid a now
      runAwards db1 uid a1 b now rest
    else
      let (db1, b1) := awardStep db uid b now
      runAwards db1 uid a b1 now rest

/-- The points column of a user row, the observable of claims C1/C2/C8. -/
def userPoints (db : DB) (uid : String) : Option Int :=
  (getUser db uid).map User.points

/-- The level column of a user row. -/
def userLevel (db : DB) (uid : String) : Option Int :=
  (getUser db uid).map User.level

/-! ### Helper lemmas -/

/-- Updating the rows selected by a key-preserving function commutes with
`find?` on that key. -/
theorem find?_map_ite {α : Type} (q : α → Prop) [DecidablePred q] (f : α → α)
    (hf : ∀ x, q x ↔ q (f x)) :
    ∀ l : List α,
      (l.map (fun x => if q x then f x else x)).find? (fun x => q x) =
        (l.find? (fun x => q x)).map f
  | [] => rfl
  | x :: xs => by
    by_cases h : q x
    · have hfx : q (f x) := (hf x).mp h
      simp only [List.map_cons, if_pos h, List.find?_cons, decide_eq_true h,
        decide_eq_true hfx, Option.map_some']
    · simp only [List.map_cons, if_neg h, List.find?_cons, decide_eq_false h,
        find?_map_ite q f hf xs]

/-- `updateTask` leaves every table except `tasks` unchanged. -/
theorem updateTask_users (db : DB) (id : String) (p : TaskPatch) (now : Nat) :
    ((updateTask db id p now).1).users = db.users := rfl

/-- `updateTask` leaves the activity log unchanged. -/
theorem updateTask_activities (db : DB) (id : String) (p : TaskPatch) (now : Nat) :
    ((updateTask db id p now).1).activities = db.activities := rfl

/-- `updateUserPoints` leaves every table except `users` unchanged. -/
theorem updateUserPoints_tasks (db : DB) (uid : String) (pts : Int) (now : Nat) :
    ((updateUserPoints db uid pts now).1).tasks = db.tasks := rfl

/-- `updateUserPoints` leaves the activity log unchanged. -/
theorem updateUserPoints_activities (db : DB) (uid : String) (pts : Int) (now : Nat) :
    ((updateUserPoints db uid pts now).1).activities = db.activities := rfl

/-- `createActivity` leaves the `users` table unchanged. -/
theorem createActivity_users (db : DB) (a : Activity) :
    ((createActivity db a).1).users = db.users := rfl

/-- `createActivity` leaves the `tasks` table unchanged. -/
theorem createActivity_tasks (db : DB) (a : Activity) :
    ((createActivity db a).1).tasks = db.tasks := rfl

/-- `createActivity` appends exactly its row to the log. -/
theorem createActivity_activities (db : DB) (a : Activity) :
    ((createActivity db a).1).activities = db.activities ++ [a] := rfl

/-- Reading a user row after `updateUserPoints` sees the rewrite exactly
when the ids match. -/
theorem getUser_updateUserPoints (db : DB) (uid : String) (pts : Int) (now : Nat) :
    getUser (updateUserPoints db uid pts now).1 uid =
      (getUser db uid).map
        (fun u => { u with points := pts, level := levelFor pts, updatedAt := now }) := by
  have h := find?_map_ite (fun u : User => u.id = uid)
    (fun u => { u with points := pts, level := levelFor pts, updatedAt := now })
    (fun u => Iff.rfl) db.users
  exact h

/-- Reading a task row after `updateTask` on the same id sees the patched
row. -/
theorem getTask_updateTask (db : DB) (id : String) (p : TaskPatch) (now : Nat) :
    getTask (updateTask db id p now).1 id =
      (getTask db id).map (fun t => applyTaskPatch t p now) := by
  have h := find?_map_ite (fun t : Task => t.id = id)
    (fun t => applyTaskPatch t p now) (fun t => Iff.rfl) db.tasks
  exact h

/-- When the task row exists, `updateTask` returns the patched row. -/
theorem updateTask_found (db : DB) (tid : String) (patch : TaskPatch) (now : Nat) (t : Task)
    (ht : getTask db tid = some t) :
    updateTask db tid patch now
      = ((updateTask db tid patch now).1, some (applyTaskPatch t patch now)) := by
  unfold updateTask
  unfold getTask at ht
  rw [ht]
  rfl

/-- Reduction of `PUT /api/tasks/:id` when the task exists. -/
theorem updateTaskRoute_eq (db : DB) (tid : String) (patch : TaskPatch) (actId : String)
    (now : Nat) (t : Task) (ht : getTask db tid = some t) :
    updateTaskRoute db tid patch actId now =
      (awardIfCompleted (updateTask db tid patch now).1 (some t.status)
         (applyTaskPatch t patch now).status (applyTaskPatch t patch now) actId now,
       Response.ok (applyTaskPatch t patch now)) := by
  unfold updateTaskRoute
  rw [updateTask_found db tid patch now t ht, ht]
  rfl

/-- Reduction of `PUT /api/tasks/:id/transition` when the task exists. -/
theorem transitionTaskRoute_eq (db : DB) (uid tid : String) (status : Status)
    (comment : Option String) (actId1 actId2 : String) (now : Nat) (t : Task)
    (ht : getTask db tid = some t) :
    transitionTaskRoute db uid tid status comment actId1 actId2 now =
      (awardIfCompleted
         ((createActivity (updateTask db tid { status := some status } now).1
            (statusActivity uid (some t.status) status comment t.id actId1 now)).1)
         (some t.status) status (applyTaskPatch t { status := some status } now) actId2 now,
       Response.ok (applyTaskPatch t { status := some status } now)) := by
  unfold transitionTaskRoute
  rw [updateTask_found db tid { status := some status } now t ht, ht]
  rfl

/-- The award block is skipped when the new status is not `done`. -/
theorem awardIfCompleted_not_done (db : DB) (oldStatus : Option Status) (checkStatus : Status)
    (task : Task) (actId : String) (now : Nat) (h : checkStatus ≠ Status.done) :
    awardIfCompleted db oldStatus checkStatus task actId now = db := by
  unfold awardIfCompleted
  cases task.assigneeId with
  | none => rfl
  | some aid => simp [h]

/-- The award block is skipped when the task was already `done`. -/
theorem awardIfCompleted_old_done (db : DB) (checkStatus : Status)
    (task : Task) (actId : String) (now : Nat) :
    awardIfCompleted db (some Status.done) checkStatus task actId now = db := by
  unfold awardIfCompleted
  cases task.assigneeId with
  | none => rfl
  | some aid => simp

/-- The award block, spelled out, when its condition holds and the
assignee row exists: one `updateUserPoints` write followed by one
`task_completed` activity insert. -/
theorem awardIfCompleted_awards (db : DB) (oldStatus : Option Status) (task : Task)
    (actId : String) (now : Nat) (aid : String) (a : User)
    (hold : oldStatus ≠ some Status.done) (hass : task.assigneeId = some aid)
    (hne : aid ≠ "") (hu : getUser db aid = some a) :
    awardIfCompleted db oldStatus Status.done task actId now =
      (createActivity (updateUserPoints db aid (a.points + task.rewardPoints) now).1
        (completedActivity aid task actId now)).1 := by
  unfold awardIfCompleted
  simp only [hass]
  rw [if_pos ⟨hold, trivial, hne⟩, hu]

/-- `updateTask` does not affect user lookups. -/
theorem getUser_updateTask (db : DB) (id : String) (p : TaskPatch) (now : Nat) (uid : String) :
    getUser ((updateTask db id p now).1) uid = getUser db uid := rfl

/-- `createActivity` does not affect user lookups. -/
theorem getUser_createActivity (db : DB) (a : Activity) (uid : String) :
    getUser ((createActivity db a).1) uid = getUser db uid := rfl

/-- `updateUserPoints` does not affect task lookups. -/
theorem getTask_updateUserPoints (db : DB) (uid : String) (pts : Int) (now : Nat) (tid : String) :
    getTask ((updateUserPoints db uid pts now).1) tid = getTask db tid := rfl

/-- `createActivity` does not affect task lookups. -/
theorem getTask_createActivity (db : DB) (a : Activity) (tid : String) :
    getTask ((createActivity db a).1) tid = getTask db tid := rfl

/-- Sample rows used by the concrete witnesses and counterexamples. -/
def user1 : User :=
  { id := "u2", email := some "u2@example.org", firstName := some "Ada", lastName := none,
    profileImageUrl := none, role := Role.member, bio := none, country := none,
    sdgAlignment := none, points := 40, level := 1, createdAt := 0, updatedAt := 0 }

/-- A board row of project `p1`. -/
def board1 : Board :=
  { id := "b1", name := "Main Board", description := some "Default project board",
    projectId := "p1", columns := defaultBoardColumns, createdAt := 0, updatedAt := 0 }

/-- A todo task on `board1` assigned to `user1`. -/
def task1 : Task :=
  { id := "t1", title := "Plant trees", description := some "plant some trees",
    type := TaskType.task, priority := Priority.medium, status := Status.todo,
    boardId := "b1", assigneeId := some "u2", reporterId := "u1", labels := none,
    estimationHours := none, rewardPoints := 150, dueDate := some 9, sdgLink := some "13",
    progress := 30, createdAt := 0, updatedAt := 0 }

/-- An active badge row. -/
def badge1 : Badge :=
  { id := "bg1", name := "Pioneer", description := some "first steps", icon := some "star",
    criteria := some "crit", pointsRequired := some 10, isActive := true, createdAt := 0 }

/-- An award of `badge1` to `user1`. -/
def userBadge1 : UserBadge :=
  { id := "ub1", userId := "u2", badgeId := "bg1", earnedAt := 3 }

/-- A small concrete store holding the sample rows. -/
def db0 : DB :=
  { users := [user1], projects := [], boards := [board1], tasks := [task1],
    badges := [badge1], userBadges := [userBadge1], activities := [],
    taskDependencies := [] }

/-! ### Claim theorems -/

/-- C6: `deleteBadge` keeps the badge row (same row count), flips
`isActive` to `false` on the targeted id, changes no other badge field,
removes the badge from `getBadges` (which only ever returns active
badges), and leaves the `userBadges` table untouched. -/
theorem claim6_deleteBadge_soft_delete (db : DB) (bid : String) :
    ((deleteBadge db bid).badges.length = db.badges.length)
    ∧ (∀ b' ∈ (deleteBadge db bid).badges, b'.id = bid → b'.isActive = false)
    ∧ ((deleteBadge db bid).badges.map
         (fun b => (b.id, b.name, b.description, b.icon, b.criteria, b.pointsRequired, b.createdAt))
       = db.badges.map
         (fun b => (b.id, b.name, b.description, b.icon, b.criteria, b.pointsRequired, b.createdAt)))
    ∧ (∀ b' ∈ getBadges db, b'.isActive = true)
    ∧ (∀ b' ∈ getBadges (deleteBadge db bid), b'.id ≠ bid)
    ∧ ((deleteBadge db bid).userBadges = db.userBadges) := by
  refine ⟨?_, ?_, ?_, ?_, ?_, rfl⟩
  · simp [deleteBadge]
  · intro b' hb' hid
    simp only [deleteBadge, List.mem_map] at hb'
    obtain ⟨b, _, hb⟩ := hb'
    by_cases h : b.id = bid
    · simp only [if_pos h] at hb
      rw [← hb]
    · simp only [if_neg h] at hb
      exact absurd (hb ▸ hid) h
  · simp only [deleteBadge, List.map_map]
    apply List.map_congr_left
    intro b _
    by_cases h : b.id = bid <;> simp [h]
  · intro b' hb'
    have hmem : b' ∈ db.badges.filter (fun b => b.isActive = true) :=
      (List.perm_insertionSort _ _).mem_iff.mp hb'
    have := (List.mem_filter.mp hmem).2
    simpa using this
  · intro b' hb' hid
    have hmem : b' ∈ (deleteBadge db bid).badges.filter (fun b => b.isActive = true) :=
      (List.perm_insertionSort _ _).mem_iff.mp hb'
    obtain ⟨hb', hact⟩ := List.mem_filter.mp hmem
    simp only [deleteBadge, List.mem_map] at hb'
    obtain ⟨b, _, hb⟩ := hb'
    by_cases h : b.id = bid
    · simp only [if_pos h] at hb
      rw [← hb] at hact
      simp at hact
    · simp only [if_neg h] at hb
      exact h (hb ▸ hid)

/-- C6 witness: deleting `badge1` in the sample store, the stored row
with its id has `isActive = false`. -/
theorem claim6_witness :
    ({ badge1 with isActive := false } : Badge).isActive = false :=
  (claim6_deleteBadge_soft_delete db0 "bg1").2.1 { badge1 with isActive := false }
    (by decide) (by decide)

/-- The activity row `createTaskDependency` inserts, spelled out. -/
def depActivity (t d actId : String) (now : Nat) : Activity :=
  { id := actId, userId := "", type := "dependency_created",
    description := "Task dependency created",
    metadata := some (Metadata.dependencyCreated d), projectId := none,
    taskId := some t, createdAt := now }

/-- C9: `createTaskDependency` never writes the `task_dependencies`
table; it appends a single `dependency_created` activity with an
empty-string actor and the target id in the metadata, and a subsequent
`getTaskDependencies` on the task returns a record with that `taskId` and
`dependsOnTaskId` — the dependency round-trips through the activity
log. -/
theorem claim9_dependency_roundtrip_activities (db : DB) (t d actId : String) (now : Nat) :
    ((createTaskDependency db t d actId now).1.taskDependencies = db.taskDependencies)
    ∧ ((createTaskDependency db t d actId now).1.activities
        = db.activities ++ [depActivity t d actId now])
    ∧ ((createTaskDependency db t d actId now).2
        = { id := actId, taskId := some t, dependsOnTaskId := some d, createdAt := now })
    ∧ (∃ r ∈ getTaskDependencies (createTaskDependency db t d actId now).1 t,
         r.taskId = some t ∧ r.dependsOnTaskId = some d) := by
  refine ⟨rfl, rfl, rfl, ?_⟩
  refine ⟨{ id := actId, taskId := some t, dependsOnTaskId := some d, createdAt := now }, ?_, rfl, rfl⟩
  simp [getTaskDependencies, createTaskDependency, createActivity, List.filter_append,
    Metadata.dependsOn?]

/-- A project-creation request body carrying no board data (the handler
never reads board data from the body in any case). -/
def projBody5 : InsertProject :=
  { name := "Climate Action", description := some "plant trees", ownerId := "" }

/-- The default board row `POST /api/projects` creates, spelled out. -/
def mainBoard (projId boardId : String) (now : Nat) : Board :=
  { id := boardId, name := "Main Board", description := some "Default project board",
    projectId := projId, columns := defaultBoardColumns, createdAt := now, updatedAt := now }

/-- C5: after `POST /api/projects` completes, exactly one board row
references the new project, and its `columns` value is the default
four-column layout — the handler unconditionally creates "Main Board"
without a `columns` payload, so the schema default applies.  The
hypothesis states that the generated project id is fresh, which the
database guarantees for a generated primary key. -/
theorem claim5_project_creation_default_board (db : DB) (userId : String) (body : InsertProject)
    (projId boardId actId : String) (now : Nat)
    (hfresh : ∀ b ∈ db.boards, b.projectId ≠ projId) :
    (((createProjectRoute db userId body projId boardId actId now).1.boards.filter
        (fun b => b.projectId = projId)).length = 1)
    ∧ (∀ b ∈ (createProjectRoute db userId body projId boardId actId now).1.boards.filter
        (fun b => b.projectId = projId), b.columns = defaultBoardColumns) := by
  have hb : (createProjectRoute db userId body projId boardId actId now).1.boards
      = db.boards ++ [mainBoard projId boardId now] := rfl
  have hnil : db.boards.filter (fun b => b.projectId = projId) = [] := by
    rw [List.filter_eq_nil_iff]
    intro b hbmem
    simpa using hfresh b hbmem
  have hsingle : List.filter (fun b => decide (b.projectId = projId)) [mainBoard projId boardId now]
      = [mainBoard projId boardId now] := by
    simp [mainBoard]
  rw [hb, List.filter_append, hnil, List.nil_append, hsingle]
  refine ⟨rfl, ?_⟩
  intro b hbmem
  rw [List.mem_singleton] at hbmem
  rw [hbmem]
  rfl

/-- C5 witness: in the sample store (whose only board belongs to project
`p1`), creating a project with fresh id `p2` leaves exactly one board for
`p2`, carrying the default columns. -/
theorem claim5_witness :
    ((((createProjectRoute db0 "u1" projBody5 "p2" "b2" "a1" 7).1.boards.filter
        (fun b => b.projectId = "p2")).length = 1)
    ∧ (∀ b ∈ (createProjectRoute db0 "u1" projBody5 "p2" "b2" "a1" 7).1.boards.filter
        (fun b => b.projectId = "p2"), b.columns = defaultBoardColumns)) :=
  claim5_project_creation_default_board db0 "u1" projBody5 "p2" "b2" "a1" 7 (by decide)

/-- A board-creation request body used by the C3 counterexample. -/
def boardBody3 : InsertBoard :=
  { name := "QA Board", projectId := "" }

/-- C3 counterexample: the claim says board creation appends exactly one
Activity record, but `POST /api/projects/:projectId/boards` logs nothing —
starting from the sample store (whose log is empty), the log does not
grow by one. -/
theorem claim3_counterexample :
    ¬ ((createBoardRoute db0 "p1" boardBody3 "b9" 4).1.activities.length
        = db0.activities.length + 1) := by
  decide

/-- C3 (amended): board creation and task deletion append no Activity
record; a generic task update that does not leave the task `done` appends
none; a generic task update that completes a task with a nonempty
assignee appends exactly one (`task_completed`); and the transition path
moving such a task from a non-`done` status to `done` appends exactly two
(`status_changed` then `task_completed`). -/
theorem claim3_activity_counts (db : DB) (tid uid : String) (patch : TaskPatch)
    (actId actId1 actId2 genId pid : String) (now : Nat) (t : Task) (aid : String) (a : User)
    (bbody : InsertBoard) (comment : Option String) :
    ((createBoardRoute db pid bbody genId now).1.activities = db.activities)
    ∧ ((deleteTaskRoute db tid).1.activities = db.activities)
    ∧ (getTask db tid = some t → (applyTaskPatch t patch now).status ≠ Status.done →
        (updateTaskRoute db tid patch actId now).1.activities = db.activities)
    ∧ (getTask db tid = some t → t.status ≠ Status.done → t.assigneeId = some aid → aid ≠ "" →
        getUser db aid = some a → patch.status = some Status.done → patch.assigneeId = none →
        ((updateTaskRoute db tid patch actId now).1.activities.length
            = db.activities.length + 1
         ∧ (transitionTaskRoute db uid tid Status.done comment actId1 actId2 now).1.activities.length
            = db.activities.length + 2)) := by
  refine ⟨rfl, rfl, ?_, ?_⟩
  · intro ht hdone
    rw [updateTaskRoute_eq db tid patch actId now t ht]
    rw [awardIfCompleted_not_done _ _ _ _ _ _ hdone]
    exact updateTask_activities db tid patch now
  · intro ht hst hass hne hu hps hpa
    have hold : (some t.status : Option Status) ≠ some Status.done := by
      intro h
      exact hst (Option.some_injective Status h)
    constructor
    · rw [updateTaskRoute_eq db tid patch actId now t ht]
      have hth : (applyTaskPatch t patch now).status = Status.done := by
        simp [applyTaskPatch, hps]
      have hassp : (applyTaskPatch t patch now).assigneeId = some aid := by
        simp [applyTaskPatch, hpa, hass]
      have hup : getUser (updateTask db tid patch now).1 aid = some a := by
        rw [getUser_updateTask]
        exact hu
      rw [hth, awardIfCompleted_awards _ _ _ _ _ aid a hold hassp hne hup]
      rw [createActivity_activities, updateUserPoints_activities, updateTask_activities]
      simp
    · rw [transitionTaskRoute_eq db uid tid Status.done comment actId1 actId2 now t ht]
      have hassp : (applyTaskPatch t { status := some Status.done } now).assigneeId = some aid := by
        simp [applyTaskPatch, hass]
      have hup : getUser ((createActivity (updateTask db tid { status := some Status.done } now).1
          (statusActivity uid (some t.status) Status.done comment t.id actId1 now)).1) aid
          = some a := by
        rw [getUser_createActivity, getUser_updateTask]
        exact hu
      rw [awardIfCompleted_awards _ _ _ _ _ aid a hold hassp hne hup]
      rw [createActivity_activities, updateUserPoints_activities, createActivity_activities,
        updateTask_activities]
      simp

/-- C3 witness: in the sample store, completing `task1` through the
transition path appends exactly two activity records, and deleting a task
appends none. -/
theorem claim3_witness :
    ((createBoardRoute db0 "p1" boardBody3 "b9" 4).1.activities = db0.activities)
    ∧ ((deleteTaskRoute db0 "t1").1.activities = db0.activities)
    ∧ ((updateTaskRoute db0 "t1" { status := some Status.done } "a7" 5).1.activities.length
        = db0.activities.length + 1)
    ∧ ((transitionTaskRoute db0 "u1" "t1" Status.done none "a8" "a9" 5).1.activities.length
        = db0.activities.length + 2) := by
  have h := claim3_activity_counts db0 "t1" "u1" { status := some Status.done }
    "a7" "a8" "a9" "b9" "p1" 5 task1 "u2" user1 boardBody3 none
  have h4 := h.2.2.2 (by decide) (by decide) (by decide) (by decide) (by decide)
    (by decide) (by decide)
  exact ⟨h.1, h.2.1, h4.1, h4.2⟩

/-- C1: for a task with a (nonempty) assignee and a non-`done` status,
setting the status to `done` through the generic update path or through
the transition path increases the assignee's stored points by exactly the
task's `rewardPoints`; repeating the same call afterwards (the task now
being `done`) leaves the points unchanged.  The patch is assumed not to
modify `assigneeId` or `rewardPoints` themselves, so that "the assignee"
and "the reward" are well defined. -/
theorem claim1_done_transition_awards_once (db : DB) (tid uid : String) (patch : TaskPatch)
    (actId actIdB actId1 actId2 actId3 actId4 : String) (now nowB : Nat) (t : Task)
    (aid : String) (a : User) (comment : Option String)
    (ht : getTask db tid = some t) (hst : t.status ≠ Status.done)
    (hass : t.assigneeId = some aid) (hne : aid ≠ "") (hu : getUser db aid = some a)
    (hps : patch.status = some Status.done) (hpa : patch.assigneeId = none)
    (hpr : patch.rewardPoints = none) :
    (userPoints (updateTaskRoute db tid patch actId now).1 aid
        = some (a.points + t.rewardPoints))
    ∧ (userPoints (updateTaskRoute (updateTaskRoute db tid patch actId now).1
          tid patch actIdB nowB).1 aid
        = userPoints (updateTaskRoute db tid patch actId now).1 aid)
    ∧ (userPoints (transitionTaskRoute db uid tid Status.done comment actId1 actId2 now).1 aid
        = some (a.points + t.rewardPoints))
    ∧ (userPoints (transitionTaskRoute
          (transitionTaskRoute db uid tid Status.done comment actId1 actId2 now).1
          uid tid Status.done comment actId3 actId4 nowB).1 aid
        = userPoints (transitionTaskRoute db uid tid Status.done comment actId1 actId2 now).1 aid) := by
  have hold : (some t.status : Option Status) ≠ some Status.done := by
    intro h
    exact hst (Option.some_injective Status h)
  have hth : (applyTaskPatch t patch now).status = Status.done := by
    simp [applyTaskPatch, hps]
  have hassp : (applyTaskPatch t patch now).assigneeId = some aid := by
    simp [applyTaskPatch, hpa, hass]
  have hrwp : (applyTaskPatch t patch now).rewardPoints = t.rewardPoints := by
    simp [applyTaskPatch, hpr]
  refine ⟨?_, ?_, ?_, ?_⟩
  · -- generic update path: award of exactly rewardPoints
    rw [updateTaskRoute_eq db tid patch actId now t ht]
    have hup : getUser (updateTask db tid patch now).1 aid = some a := by
      rw [getUser_updateTask]
      exact hu
    rw [hth, awardIfCompleted_awards _ _ _ _ _ aid a hold hassp hne hup]
    unfold userPoints
    rw [getUser_createActivity, getUser_updateUserPoints, getUser_updateTask, hu]
    simp [hrwp]
  · -- repeating the generic update does not award again
    have hX : (updateTaskRoute db tid patch actId now).1
        = (createActivity
            (updateUserPoints (updateTask db tid patch now).1 aid
              (a.points + (applyTaskPatch t patch now).rewardPoints) now).1
            (completedActivity aid (applyTaskPatch t patch now) actId now)).1 := by
      have hup : getUser (updateTask db tid patch now).1 aid = some a := by
        rw [getUser_updateTask]
        exact hu
      rw [updateTaskRoute_eq db tid patch actId now t ht, hth,
        awardIfCompleted_awards _ _ _ _ _ aid a hold hassp hne hup]
    have ht1 : getTask (updateTaskRoute db tid patch actId now).1 tid
        = some (applyTaskPatch t patch now) := by
      rw [hX, getTask_createActivity, getTask_updateUserPoints, getTask_updateTask, ht]
      rfl
    rw [updateTaskRoute_eq (updateTaskRoute db tid patch actId now).1 tid patch actIdB nowB
      (applyTaskPatch t patch now) ht1]
    rw [hth, awardIfCompleted_old_done]
    unfold userPoints
    rw [getUser_updateTask]
  · -- transition path: award of exactly rewardPoints
    rw [transitionTaskRoute_eq db uid tid Status.done comment actId1 actId2 now t ht]
    have hassp2 : (applyTaskPatch t { status := some Status.done } now).assigneeId = some aid := by
      simp [applyTaskPatch, hass]
    have hup2 : getUser ((createActivity (updateTask db tid { status := some Status.done } now).1
        (statusActivity uid (some t.status) Status.done comment t.id actId1 now)).1) aid
        = some a := by
      rw [getUser_createActivity, getUser_updateTask]
      exact hu
    rw [awardIfCompleted_awards _ _ _ _ _ aid a hold hassp2 hne hup2]
    unfold userPoints
    rw [getUser_createActivity, getUser_updateUserPoints, getUser_createActivity,
      getUser_updateTask, hu]
    simp [applyTaskPatch]
  · -- repeating the transition does not award again
    have hassp2 : (applyTaskPatch t { status := some Status.done } now).assigneeId = some aid := by
      simp [applyTaskPatch, hass]
    have hup2 : getUser ((createActivity (updateTask db tid { status := some Status.done } now).1
        (statusActivity uid (some t.status) Status.done comment t.id actId1 now)).1) aid
        = some a := by
      rw [getUser_createActivity, getUser_updateTask]
      exact hu
    have hX : (transitionTaskRoute db uid tid Status.done comment actId1 actId2 now).1
        = (createActivity
            (updateUserPoints
              ((createActivity (updateTask db tid { status := some Status.done } now).1
                (statusActivity uid (some t.status) Status.done comment t.id actId1 now)).1) aid
              (a.points + (applyTaskPatch t { status := some Status.done } now).rewardPoints) now).1
            (completedActivity aid (applyTaskPatch t { status := some Status.done } now)
              actId2 now)).1 := by
      rw [transitionTaskRoute_eq db uid tid Status.done comment actId1 actId2 now t ht,
        awardIfCompleted_awards _ _ _ _ _ aid a hold hassp2 hne hup2]
    have ht1 : getTask (transitionTaskRoute db uid tid Status.done comment actId1 actId2 now).1 tid
        = some (applyTaskPatch t { status := some Status.done } now) := by
      rw [hX, getTask_createActivity, getTask_updateUserPoints, getTask_createActivity,
        getTask_updateTask, ht]
      rfl
    have hth2 : (applyTaskPatch t { status := some Status.done } now).status = Status.done := by
      simp [applyTaskPatch]
    rw [transitionTaskRoute_eq (transitionTaskRoute db uid tid Status.done comment actId1 actId2 now).1
      uid tid Status.done comment actId3 actId4 nowB
      (applyTaskPatch t { status := some Status.done } now) ht1]
    rw [hth2, awardIfCompleted_old_done]
    unfold userPoints
    rw [getUser_createActivity, getUser_updateTask]

/-- C1 witness: in the sample store, completing `task1` (reward 150,
assignee `u2` holding 40 points) by either path leaves `u2` with exactly
190 points, and repeating either call changes nothing. -/
theorem claim1_witness :
    (userPoints (updateTaskRoute db0 "t1" { status := some Status.done } "a7" 5).1 "u2"
        = some (user1.points + task1.rewardPoints))
    ∧ (userPoints (updateTaskRoute (updateTaskRoute db0 "t1" { status := some Status.done } "a7" 5).1
          "t1" { status := some Status.done } "a8" 6).1 "u2"
        = userPoints (updateTaskRoute db0 "t1" { status := some Status.done } "a7" 5).1 "u2")
    ∧ (userPoints (transitionTaskRoute db0 "u1" "t1" Status.done none "a9" "a10" 5).1 "u2"
        = some (user1.points + task1.rewardPoints))
    ∧ (userPoints (transitionTaskRoute
          (transitionTaskRoute db0 "u1" "t1" Status.done none "a9" "a10" 5).1
          "u1" "t1" Status.done none "a11" "a12" 6).1 "u2"
        = userPoints (transitionTaskRoute db0 "u1" "t1" Status.done none "a9" "a10" 5).1 "u2") :=
  claim1_done_transition_awards_once db0 "t1" "u1" { status := some Status.done }
    "a7" "a8" "a9" "a10" "a11" "a12" 5 6 task1 "u2" user1 none
    (by decide) (by decide) (by decide) (by decide) (by decide) (by decide) (by decide) (by decide)

/-- C2: the level invariant `level = floor(points / 100) + 1`.  A freshly
inserted user gets the schema defaults `points = 0`, `level = 1` (which
satisfy the formula); `updateUserPoints` always writes the recomputed
level together with the new points value on the targeted row and leaves
every other row's pair untouched; and no other storage operation touches
`points` or `level`: `updateUserRole` and a conflicting `upsertUser`
preserve every row's pair, and the task/board/project/badge/activity
writes leave the `users` table unchanged entirely. -/
theorem claim2_level_formula_invariant (db : DB) (u : UpsertUser) (uid tid genId : String)
    (pts : Int) (role : Role) (now : Nat) (patch : TaskPatch) (act : Activity)
    (ib : InsertBoard) (ip : InsertProject) :
    (db.users.find? (fun x => x.id = u.id) = none →
       ((upsertUser db u now).2.map User.points = some 0
        ∧ (upsertUser db u now).2.map User.level = some 1
        ∧ levelFor 0 = 1))
    ∧ ((updateUserPoints db uid pts now).1.users.map (fun x => (x.id, x.points, x.level))
         = db.users.map (fun x =>
             if x.id = uid then (x.id, pts, levelFor pts) else (x.id, x.points, x.level)))
    ∧ ((updateUserRole db uid role now).1.users.map (fun x => (x.points, x.level))
         = db.users.map (fun x => (x.points, x.level)))
    ∧ ((db.users.find? (fun x => x.id = u.id)).isSome = true →
         (upsertUser db u now).1.users.map (fun x => (x.points, x.level))
           = db.users.map (fun x => (x.points, x.level)))
    ∧ ((updateTask db tid patch now).1.users = db.users)
    ∧ ((deleteTask db tid).users = db.users)
    ∧ ((createActivity db act).1.users = db.users)
    ∧ ((createBoard db ib genId now).1.users = db.users)
    ∧ ((createProject db ip genId now).1.users = db.users)
    ∧ ((deleteBadge db tid).users = db.users) := by
  refine ⟨?_, ?_, ?_, ?_, rfl, rfl, rfl, rfl, rfl, rfl⟩
  · intro h
    unfold upsertUser
    rw [h]
    exact ⟨rfl, rfl, rfl⟩
  · show (db.users.map _).map _ = _
    rw [List.map_map]
    apply List.map_congr_left
    intro x _
    by_cases h : x.id = uid <;> simp [h]
  · show (db.users.map _).map _ = _
    rw [List.map_map]
    apply List.map_congr_left
    intro x _
    by_cases h : x.id = uid <;> simp [h]
  · intro hsome
    obtain ⟨w, hw⟩ := Option.isSome_iff_exists.mp hsome
    unfold upsertUser
    rw [hw]
    show (db.users.map _).map _ = _
    rw [List.map_map]
    apply List.map_congr_left
    intro x _
    by_cases h : x.id = u.id <;> simp [h]

/-- A fresh registration payload (no row with id `u9` exists in the
sample store). -/
def upsert9 : UpsertUser :=
  { id := "u9", email := some "nine@example.org" }

/-- A conflicting registration payload (`u2` is `user1`). -/
def upsert2 : UpsertUser :=
  { id := "u2", email := some "changed@example.org" }

/-- C2 witness: a fresh insert lands with 0 points, `updateUserPoints`
with 250 points writes level 3 on the targeted row, and a conflicting
upsert preserves all points/level pairs. -/
theorem claim2_witness :
    ((upsertUser db0 upsert9 3).2.map User.points = some 0)
    ∧ ((updateUserPoints db0 "u2" 250 3).1.users.map (fun x => (x.id, x.points, x.level))
        = db0.users.map (fun x =>
            if x.id = "u2" then (x.id, 250, levelFor 250) else (x.id, x.points, x.level)))
    ∧ ((upsertUser db0 upsert2 3).1.users.map (fun x => (x.points, x.level))
        = db0.users.map (fun x => (x.points, x.level))) :=
  ⟨((claim2_level_formula_invariant db0 upsert9 "u2" "t1" "b9" 250 Role.admin 3 {} (depActivity "t1" "t2" "a1" 0)
      boardBody3 projBody5).1 (by decide)).1,
   (claim2_level_formula_invariant db0 upsert9 "u2" "t1" "b9" 250 Role.admin 3 {} (depActivity "t1" "t2" "a1" 0)
      boardBody3 projBody5).2.1,
   (claim2_level_formula_invariant db0 upsert2 "u2" "t1" "b9" 250 Role.admin 3 {} (depActivity "t1" "t2" "a1" 0)
      boardBody3 projBody5).2.2.2.1 (by decide)⟩

/-- Unpacking a row of the `projectId` branch of `searchTasks`: it is the
projection of a stored task whose board belongs to the requested project
and which passes every pushed filter. -/
theorem searchTasksProj_mem (db : DB) (p : SearchParams) (pid : String) (r : ProjTask)
    (hr : r ∈ searchTasksProj db p pid) :
    ∃ t ∈ db.tasks, r = projectTask t
      ∧ (∃ b ∈ db.boards, b.id = t.boardId ∧ b.projectId = pid)
      ∧ taskMatches t p = true := by
  unfold searchTasksProj at hr
  have h1 := List.drop_subset _ _ (List.take_subset _ _ hr)
  obtain ⟨t, htmem, hteq⟩ := List.mem_map.mp h1
  have htm : t ∈ db.tasks.filter (fun t =>
      (db.boards.any (fun b => b.id = t.boardId ∧ b.projectId = pid)) && taskMatches t p) :=
    (List.perm_insertionSort _ _).mem_iff.mp htmem
  obtain ⟨htdb, hpred⟩ := List.mem_filter.mp htm
  rw [Bool.and_eq_true] at hpred
  obtain ⟨hany, hmatch⟩ := hpred
  obtain ⟨b, hbmem, hb⟩ := List.any_eq_true.mp hany
  exact ⟨t, htdb, hteq.symm, ⟨b, hbmem, of_decide_eq_true hb⟩, hmatch⟩

/-- Unpacking a row of the unscoped branch of `searchTasks`: it is a
stored task row passing every pushed filter. -/
theorem searchTasksFull_mem (db : DB) (p : SearchParams) (r : Task)
    (hr : r ∈ searchTasksFull db p) :
    r ∈ db.tasks ∧ taskMatches r p = true := by
  unfold searchTasksFull at hr
  have h1 := List.drop_subset _ _ (List.take_subset _ _ hr)
  have htm : r ∈ db.tasks.filter (fun t => taskMatches t p) :=
    (List.perm_insertionSort _ _).mem_iff.mp h1
  obtain ⟨htdb, hpred⟩ := List.mem_filter.mp htm
  exact ⟨htdb, hpred⟩

/-- C4: whenever `searchTasks` is called with a (truthy) `projectId` `P`,
every result row is the projection of a stored task whose board belongs
to project `P`, and that task also satisfies every other supplied filter
— the join condition and the pushed conditions are conjoined. -/
theorem claim4_search_scoped_to_project (db : DB) (p : SearchParams) (pid : String)
    (hpid : p.projectId = some pid) (hne : pid ≠ "") :
    ∀ row ∈ searchTasks db p, ∃ r, row = SearchRow.projected r
      ∧ ∃ t ∈ db.tasks, r = projectTask t
        ∧ (∃ b ∈ db.boards, b.id = t.boardId ∧ b.projectId = pid)
        ∧ taskMatches t p = true := by
  intro row hrow
  unfold searchTasks at hrow
  simp only [hpid] at hrow
  rw [if_neg hne] at hrow
  obtain ⟨r, hr, hre⟩ := List.mem_map.mp hrow
  exact ⟨r, hre.symm, searchTasksProj_mem db p pid r hr⟩

/-- Search parameters with a project scope and a status filter, for the
C4 witness. -/
def params4 : SearchParams :=
  { status := some "todo", projectId := some "p1", limit := 50, offset := 0 }

/-- C4 witness: in the sample store, the search scoped to project `p1`
with a `todo` filter returns the projection of `task1`, whose board
`board1` belongs to `p1`. -/
theorem claim4_witness :
    ∃ r, (SearchRow.projected (projectTask task1)) = SearchRow.projected r
      ∧ ∃ t ∈ db0.tasks, r = projectTask t
        ∧ (∃ b ∈ db0.boards, b.id = t.boardId ∧ b.projectId = "p1")
        ∧ taskMatches t params4 = true :=
  claim4_search_scoped_to_project db0 params4 "p1" rfl (by decide)
    (SearchRow.projected (projectTask task1)) (by decide)

/-- C10: with a (truthy) `projectId`, every `searchTasks` result row is a
projected record (the 15 explicitly selected columns); without one, every
result row is a full stored task row; and the projection genuinely drops
`dueDate` and `progress` — two tasks differing only there project
identically. -/
theorem claim10_search_projection_columns (db : DB) (p : SearchParams) (pid : String) :
    (p.projectId = some pid → pid ≠ "" →
       ∀ row ∈ searchTasks db p, ∃ t ∈ db.tasks, row = SearchRow.projected (projectTask t))
    ∧ (p.projectId = none →
       ∀ row ∈ searchTasks db p, ∃ t ∈ db.tasks, row = SearchRow.full t)
    ∧ (∀ (t : Task) (dd : Option Nat) (pr : Int),
         projectTask { t with dueDate := dd, progress := pr } = projectTask t) := by
  refine ⟨?_, ?_, ?_⟩
  · intro hpid hne row hrow
    unfold searchTasks at hrow
    simp only [hpid] at hrow
    rw [if_neg hne] at hrow
    obtain ⟨r, hr, hre⟩ := List.mem_map.mp hrow
    obtain ⟨t, htdb, hteq, _, _⟩ := searchTasksProj_mem db p pid r hr
    exact ⟨t, htdb, by rw [← hre, hteq]⟩
  · intro hpid row hrow
    unfold searchTasks at hrow
    simp only [hpid] at hrow
    obtain ⟨r, hr, hre⟩ := List.mem_map.mp hrow
    exact ⟨r, (searchTasksFull_mem db p r hr).1, hre.symm⟩
  · intro t dd pr
    rfl

/-- Unscoped search parameters for the C10 witness. -/
def params10 : SearchParams :=
  { limit := 50, offset := 0 }

/-- C10 witness: in the sample store, the `p1`-scoped search returns the
projection of `task1` while the unscoped search returns the full `task1`
row, and the projection collapses `dueDate`/`progress` differences. -/
theorem claim10_witness :
    (∃ t ∈ db0.tasks, SearchRow.projected (projectTask task1) = SearchRow.projected (projectTask t))
    ∧ (∃ t ∈ db0.tasks, SearchRow.full task1 = SearchRow.full t)
    ∧ projectTask { task1 with dueDate := none, progress := 0 } = projectTask task1 :=
  ⟨(claim10_search_projection_columns db0 params4 "p1").1 rfl (by decide)
      (SearchRow.projected (projectTask task1)) (by decide),
   (claim10_search_projection_columns db0 params10 "p1").2.1 rfl
      (SearchRow.full task1) (by decide),
   (claim10_search_projection_columns db0 params10 "p1").2.2 task1 none 0⟩

/-- The failing award block, spelled out, when its condition holds and
the assignee row exists: the points write commits, then the activity
insert throws. -/
theorem awardIfCompletedLogFail_awards (db : DB) (oldStatus : Option Status) (task : Task)
    (now : Nat) (aid : String) (a : User)
    (hold : oldStatus ≠ some Status.done) (hass : task.assigneeId = some aid)
    (hne : aid ≠ "") (hu : getUser db aid = some a) :
    awardIfCompletedLogFail db oldStatus Status.done task now
      = ((updateUserPoints db aid (a.points + task.rewardPoints) now).1, true) := by
  unfold awardIfCompletedLogFail
  simp only [hass]
  rw [if_pos ⟨hold, trivial, hne⟩, hu]

/-- Reduction of the failing `PUT /api/tasks/:id` when the task exists. -/
theorem updateTaskRouteLogFail_eq (db : DB) (tid : String) (patch : TaskPatch) (now : Nat)
    (t : Task) (ht : getTask db tid = some t) :
    updateTaskRouteLogFail db tid patch now =
      (match awardIfCompletedLogFail (updateTask db tid patch now).1 (some t.status)
         (applyTaskPatch t patch now).status (applyTaskPatch t patch now) now with
       | (db2, true) => (db2, Response.serverError "Failed to update task")
       | (db2, false) => (db2, Response.ok (applyTaskPatch t patch now))) := by
  unfold updateTaskRouteLogFail
  rw [updateTask_found db tid patch now t ht, ht]
  rfl

/-- C7 counterexample: with `task1` at `todo` in the sample store, a
transition call whose `status_changed` activity insert throws answers
with the 500 error — it does not return the updated task — while the
status write has already persisted.  This refutes the claim that the
operation still returns the updated task to the caller. -/
theorem claim7_counterexample :
    ((transitionTaskRouteLogFail db0 "t1" Status.done 5).2
        = Response.serverError "Failed to transition task")
    ∧ (¬ ∃ tk : Task, (transitionTaskRouteLogFail db0 "t1" Status.done 5).2 = Response.ok tk)
    ∧ ((getTask (transitionTaskRouteLogFail db0 "t1" Status.done 5).1 "t1").map Task.status
        = some Status.done) := by
  refine ⟨rfl, ?_, by decide⟩
  rintro ⟨tk, htk⟩
  rw [show (transitionTaskRouteLogFail db0 "t1" Status.done 5).2
      = Response.serverError "Failed to transition task" from rfl] at htk
  exact Response.noConfusion htk

/-- C7 (amended): when the Activity write fails after the task-status
update has succeeded, the status change is indeed not rolled back — but
the handler's catch block responds with a 500 error instead of the
updated task.  On the transition path the award block is never reached;
on the generic update path a failure of the `task_completed` insert also
leaves the already-committed points award in place. -/
theorem claim7_activity_failure_no_rollback (db : DB) (tid : String) (status : Status)
    (patch : TaskPatch) (now : Nat) (t : Task) (aid : String) (a : User)
    (ht : getTask db tid = some t) :
    ((transitionTaskRouteLogFail db tid status now).2
        = Response.serverError "Failed to transition task")
    ∧ ((getTask (transitionTaskRouteLogFail db tid status now).1 tid).map Task.status
        = some status)
    ∧ (t.status ≠ Status.done → t.assigneeId = some aid → aid ≠ "" → getUser db aid = some a →
        patch.status = some Status.done → patch.assigneeId = none → patch.rewardPoints = none →
        (((updateTaskRouteLogFail db tid patch now).2
            = Response.serverError "Failed to update task")
         ∧ ((getTask (updateTaskRouteLogFail db tid patch now).1 tid).map Task.status
            = some Status.done)
         ∧ (userPoints (updateTaskRouteLogFail db tid patch now).1 aid
            = some (a.points + t.rewardPoints)))) := by
  refine ⟨rfl, ?_, ?_⟩
  · show (getTask (updateTask db tid { status := some status } now).1 tid).map Task.status
        = some status
    rw [getTask_updateTask, ht]
    simp [applyTaskPatch]
  · intro hst hass hne hu hps hpa hpr
    have hold : (some t.status : Option Status) ≠ some Status.done := by
      intro h
      exact hst (Option.some_injective Status h)
    have hth : (applyTaskPatch t patch now).status = Status.done := by
      simp [applyTaskPatch, hps]
    have hassp : (applyTaskPatch t patch now).assigneeId = some aid := by
      simp [applyTaskPatch, hpa, hass]
    have hrwp : (applyTaskPatch t patch now).rewardPoints = t.rewardPoints := by
      simp [applyTaskPatch, hpr]
    have hup : getUser (updateTask db tid patch now).1 aid = some a := by
      rw [getUser_updateTask]
      exact hu
    have hX : updateTaskRouteLogFail db tid patch now
        = ((updateUserPoints (updateTask db tid patch now).1 aid
             (a.points + (applyTaskPatch t patch now).rewardPoints) now).1,
           Response.serverError "Failed to update task") := by
      rw [updateTaskRouteLogFail_eq db tid patch now t ht, hth,
        awardIfCompletedLogFail_awards _ _ _ _ aid a hold hassp hne hup]
    rw [hX]
    refine ⟨rfl, ?_, ?_⟩
    · rw [getTask_updateUserPoints, getTask_updateTask, ht]
      simp [applyTaskPatch, hps]
    · unfold userPoints
      rw [getUser_updateUserPoints, getUser_updateTask, hu]
      simp [hrwp]

/-- C7 witness: the amended behavior at the sample store — both failing
paths answer 500, the status write and (on the update path) the points
write persist. -/
theorem claim7_witness :
    ((transitionTaskRouteLogFail db0 "t1" Status.in_progress 5).2
        = Response.serverError "Failed to transition task")
    ∧ ((getTask (transitionTaskRouteLogFail db0 "t1" Status.in_progress 5).1 "t1").map Task.status
        = some Status.in_progress)
    ∧ (((updateTaskRouteLogFail db0 "t1" { status := some Status.done } 5).2
          = Response.serverError "Failed to update task")
       ∧ ((getTask (updateTaskRouteLogFail db0 "t1" { status := some Status.done } 5).1 "t1").map
            Task.status = some Status.done)
       ∧ (userPoints (updateTaskRouteLogFail db0 "t1" { status := some Status.done } 5).1 "u2"
          = some (user1.points + task1.rewardPoints))) :=
  ⟨(claim7_activity_failure_no_rollback db0 "t1" Status.in_progress
      { status := some Status.done } 5 task1 "u2" user1 (by decide)).1,
   (claim7_activity_failure_no_rollback db0 "t1" Status.in_progress
      { status := some Status.done } 5 task1 "u2" user1 (by decide)).2.1,
   (claim7_activity_failure_no_rollback db0 "t1" Status.in_progress
      { status := some Status.done } 5 task1 "u2" user1 (by decide)).2.2
      (by decide) (by decide) (by decide) (by decide) (by decide) (by decide) (by decide)⟩

/-- The user of the C8 lost-update scenario: `u3` with 0 points. -/
def user3 : User :=
  { id := "u3", email := none, firstName := none, lastName := none, profileImageUrl := none,
    role := Role.member, bio := none, country := none, sdgAlignment := none,
    points := 0, level := 1, createdAt := 0, updatedAt := 0 }

/-- A store holding only `user3`. -/
def db8 : DB :=
  { users := [user3], projects := [], boards := [], tasks := [], badges := [],
    userBadges := [], activities := [], taskDependencies := [] }

/-- C8 counterexample: the two point awards (rewards 100 and 50) for
`u3`, each a separate `getUser` read followed by an `updateUserPoints`
write with no transaction, admit the interleaving read-A, read-B,
write-A, write-B, after which `u3` holds 50 points — not the 150 the
claim asserts the operations always converge to. -/
theorem claim8_counterexample :
    (userPoints (runAwards db8 "u3" (awardInit 100) (awardInit 50) 9
        [true, false, true, false]) "u3" = some 50)
    ∧ ((50 : Int) ≠ 150) := by
  refine ⟨by decide, by decide⟩

/-- One scheduler step of the left thread, given the outcome of its
storage call. -/
theorem runAwards_true_eq {db db' : DB} {uid : String} {a a' b : AwardThread} {now : Nat}
    {rest : List Bool} (h : awardStep db uid a now = (db', a')) :
    runAwards db uid a b now (true :: rest) = runAwards db' uid a' b now rest := by
  rw [runAwards, h]
  rfl

/-- One scheduler step of the right thread. -/
theorem runAwards_false_eq {db db' : DB} {uid : String} {a b b' : AwardThread} {now : Nat}
    {rest : List Bool} (h : awardStep db uid b now = (db', b')) :
    runAwards db uid a b now (false :: rest) = runAwards db' uid a b' now rest := by
  rw [runAwards, h]
  rfl

/-- An exhausted schedule returns the store. -/
theorem runAwards_nil {db : DB} {uid : String} {a b : AwardThread} {now : Nat} :
    runAwards db uid a b now [] = db := rfl

/-- The read step of a fresh award thread observes the assignee's current
points. -/
theorem awardStep_init (db : DB) (uid : String) (reward : Int) (now : Nat) (u : User)
    (hu : getUser db uid = some u) :
    awardStep db uid (awardInit reward) now
      = (db, { reward := reward, pc := 1, acc := u.points }) := by
  unfold awardStep awardInit
  rw [hu]
  rfl

/-- The write step commits `acc + reward` through `updateUserPoints`. -/
theorem awardStep_write (db : DB) (uid : String) (reward acc : Int) (now : Nat) :
    awardStep db uid { reward := reward, pc := 1, acc := acc } now
      = ((updateUserPoints db uid (acc + reward) now).1,
         { reward := reward, pc := 2, acc := acc }) := rfl

/-- C8 (amended): the point-award read-modify-write is not atomically
isolated.  Running the two awards back to back (schedule A-read, A-write,
B-read, B-write) yields `points + r1 + r2`, but the interleaving in which
both reads happen before either write (A-read, B-read, A-write, B-write)
loses the first award and yields `points + r2`. -/
theorem claim8_award_interleaving_lost_update (db : DB) (uid : String) (u : User)
    (r1 r2 : Int) (now : Nat) (hu : getUser db uid = some u) :
    (userPoints (runAwards db uid (awardInit r1) (awardInit r2) now
        [true, true, false, false]) uid = some (u.points + r1 + r2))
    ∧ (userPoints (runAwards db uid (awardInit r1) (awardInit r2) now
        [true, false, true, false]) uid = some (u.points + r2)) := by
  have h1 : ∀ (pts : Int) (n2 : Nat), getUser (updateUserPoints db uid pts n2).1 uid
      = some { u with points := pts, level := levelFor pts, updatedAt := n2 } := by
    intro pts n2
    rw [getUser_updateUserPoints, hu]
    rfl
  have h2 : ∀ (pts1 pts2 : Int) (n1 n2 : Nat),
      getUser (updateUserPoints (updateUserPoints db uid pts1 n1).1 uid pts2 n2).1 uid
        = some { u with points := pts2, level := levelFor pts2, updatedAt := n2 } := by
    intro pts1 pts2 n1 n2
    rw [getUser_updateUserPoints, h1]
    rfl
  constructor
  · unfold userPoints
    rw [runAwards_true_eq (awardStep_init db uid r1 now u hu)]
    rw [runAwards_true_eq (awardStep_write db uid r1 u.points now)]
    rw [runAwards_false_eq (awardStep_init (updateUserPoints db uid (u.points + r1) now).1
      uid r2 now _ (h1 (u.points + r1) now))]
    rw [runAwards_false_eq (awardStep_write (updateUserPoints db uid (u.points + r1) now).1
      uid r2 _ now)]
    rw [runAwards_nil, h2]
    rfl
  · unfold userPoints
    rw [runAwards_true_eq (awardStep_init db uid r1 now u hu)]
    rw [runAwards_false_eq (awardStep_init db uid r2 now u hu)]
    rw [runAwards_true_eq (awardStep_write db uid r1 u.points now)]
    rw [runAwards_false_eq (awardStep_write (updateUserPoints db uid (u.points + r1) now).1
      uid r2 u.points now)]
    rw [runAwards_nil, h2]
    rfl

/-- C8 witness: in the `u3` store, the back-to-back schedule yields 150
points while the interleaved one yields 50. -/
theorem claim8_witness :
    (userPoints (runAwards db8 "u3" (awardInit 100) (awardInit 50) 9
        [true, true, false, false]) "u3" = some (user3.points + 100 + 50))
    ∧ (userPoints (runAwards db8 "u3" (awardInit 100) (awardInit 50) 9
        [true, false, true, false]) "u3" = some (user3.points + 50)) :=
  claim8_award_interleaving_lost_update db8 "u3" user3 100 50 9 (by decide)

end Cog
